import Mathlib

/-!
Shallow embedding of the NEXORA SYNERGY backend (src/main.py, src/schemas.py):
a FastAPI content-serving service with read endpoints (services, projects,
blog posts, testimonials), write endpoints (contact, newsletter), and a
diagnostics endpoint.  Documents are modelled as ordered association lists of
string keys to JSON-like values, mirroring Python dicts with unique keys.
The store client (database.py) is not part of the sources; where a claim
depends on it, its operations are modelled from the spec and marked so.
-/

namespace Nexora

/-- A JSON-like Python value as it appears in documents: strings, booleans,
Python None, lists, datetimes (held as their opaque rendering), and store
internal keys (ObjectId, held as its hex string). -/
inductive Val where
  | vstr : String → Val
  | vbool : Bool → Val
  | vnone : Val
  | vlist : List Val → Val
  | vdt : String → Val
  | oid : String → Val

/-- A document: a Python dict with string keys, in insertion order.
Keys are unique (dict semantics). -/
abbrev Doc := List (String × Val)

/-- `d.get(k)` on a Python dict: first (only) binding of `k`, if any. -/
def dget : Doc → String → Option Val
  | [], _ => Option.none
  | (k2, v) :: rest, k => if k2 == k then some v else dget rest k

/-- `d[k] = v` on a Python dict: replace the binding in place if the key is
present, otherwise append it at the end. -/
def dset : Doc → String → Val → Doc
  | [], k, v => [(k, v)]
  | (k2, v2) :: rest, k, v =>
    if k2 == k then (k, v) :: rest else (k2, v2) :: dset rest k v

/-- `d.pop(k, None)` on a Python dict: drop the binding of `k` (dict keys are
unique, so dropping every match coincides with dropping the one match). -/
def dpop : Doc → String → Doc
  | [], _ => []
  | (k2, v) :: rest, k => if k2 == k then dpop rest k else (k2, v) :: dpop rest k

/-- Python `str(d.get("_id"))` as applied to an internal-key slot: a missing
key or a None value stringifies to "None", an ObjectId to its hex string.
The remaining constructors never occur as internal keys; their Python
rendering is abbreviated. -/
def pyStr : Option Val → String
  | Option.none => "None"
  | some Val.vnone => "None"
  | some (Val.oid s) => s
  | some (Val.vstr s) => s
  | some (Val.vbool b) => if b then "True" else "False"
  | some (Val.vdt s) => s
  | some (Val.vlist _) => "<list>"

/-- The per-document rewrite every read handler performs on a fetched
document: `d["id"] = str(d.get("_id"))` followed by `d.pop("_id", None)`
(src/main.py lines 108-110, 122-124, 136-138, 168-170). -/
def convertDoc (d : Doc) : Doc :=
  dpop (dset d "id" (Val.vstr (pyStr (dget d "_id")))) "_id"

/-- The `ListResponse` response model of src/main.py (lines 98-99). -/
structure ListResponse where
  items : List Doc

/-- Shared body of the four read handlers: `docs = get_documents(...)`, and
if `docs` is truthy return the converted documents, otherwise (empty list, or
any exception, swallowed by `except Exception: pass`) return the fallback. -/
def readEndpoint (fetch : Except String (List Doc)) (fallback : List Doc) : ListResponse :=
  match fetch with
  | Except.ok docs => if docs.isEmpty then ⟨fallback⟩ else ⟨docs.map convertDoc⟩
  | Except.error _ => ⟨fallback⟩

/-- `Service.model_dump()` of the five `DEFAULT_SERVICES` seed records
(src/main.py lines 68-79); field order follows the class declaration in
src/schemas.py (icon, title, slug, summary, content, featured). -/
def defaultServicesDump : List Doc :=
  [ [("icon", Val.vstr "Code"), ("title", Val.vstr "Software & Web Development"),
     ("slug", Val.vstr "software-web-development"),
     ("summary", Val.vstr "Custom applications, modern web platforms, and scalable architectures."),
     ("content", Val.vnone), ("featured", Val.vbool true)],
    [("icon", Val.vstr "Shield"), ("title", Val.vstr "Cybersecurity & Network Solutions"),
     ("slug", Val.vstr "cybersecurity-network"),
     ("summary", Val.vstr "Proactive defense, audits, and zero-trust strategies for resilient systems."),
     ("content", Val.vnone), ("featured", Val.vbool false)],
    [("icon", Val.vstr "GitBranch"), ("title", Val.vstr "Digital Transformation & IT Consultancy"),
     ("slug", Val.vstr "digital-transformation"),
     ("summary", Val.vstr "Roadmaps, process automation, and change management for enterprise evolution."),
     ("content", Val.vnone), ("featured", Val.vbool false)],
    [("icon", Val.vstr "Cloud"), ("title", Val.vstr "Cloud Services"),
     ("slug", Val.vstr "cloud-services"),
     ("summary", Val.vstr "Cloud-native design, infrastructure as code, and cost optimization."),
     ("content", Val.vnone), ("featured", Val.vbool false)],
    [("icon", Val.vstr "LineChart"), ("title", Val.vstr "Data & Analytics"),
     ("slug", Val.vstr "data-analytics"),
     ("summary", Val.vstr "Dashboards, ML pipelines, and insights that move the business."),
     ("content", Val.vnone), ("featured", Val.vbool false)] ]

/-- `Project.model_dump()` of the three `DEFAULT_PROJECTS` seed records
(src/main.py lines 81-88); field order: title, slug, summary, content,
images, tags, metrics. -/
def defaultProjectsDump : List Doc :=
  [ [("title", Val.vstr "Nebula Commerce Platform"), ("slug", Val.vstr "nebula-commerce"),
     ("summary", Val.vstr "Composable eCommerce with sub-second TTFB and 99.99% uptime."),
     ("content", Val.vnone), ("images", Val.vnone),
     ("tags", Val.vlist [Val.vstr "Next.js", Val.vstr "Edge", Val.vstr "MongoDB"]),
     ("metrics", Val.vnone)],
    [("title", Val.vstr "Aegis SOC Automation"), ("slug", Val.vstr "aegis-soc"),
     ("summary", Val.vstr "SOAR workflows cutting incident response time by 68%."),
     ("content", Val.vnone), ("images", Val.vnone),
     ("tags", Val.vlist [Val.vstr "Python", Val.vstr "SIEM", Val.vstr "Playbooks"]),
     ("metrics", Val.vnone)],
    [("title", Val.vstr "Stratus Cloud Migration"), ("slug", Val.vstr "stratus-migration"),
     ("summary", Val.vstr "Multi-cloud migration with 32% cost reduction."),
     ("content", Val.vnone), ("images", Val.vnone),
     ("tags", Val.vlist [Val.vstr "Kubernetes", Val.vstr "IaC", Val.vstr "GCP/AWS"]),
     ("metrics", Val.vnone)] ]

/-- `BlogPost.model_dump()` of the single `DEFAULT_POSTS` seed record
(src/main.py lines 90-95); its `date` field is `datetime.utcnow()` taken at
module load, so the dump is parameterized by that timestamp. Field order:
title, slug, author, date, tags, excerpt, coverImage, content. -/
def defaultPostsDump (loadTime : String) : List Doc :=
  [ [("title", Val.vstr "Designing for Velocity and Safety"),
     ("slug", Val.vstr "velocity-and-safety"),
     ("author", Val.vstr "NEXORA Team"), ("date", Val.vdt loadTime),
     ("tags", Val.vlist [Val.vstr "Architecture", Val.vstr "DX"]),
     ("excerpt", Val.vstr "How we deliver fast without compromising security."),
     ("coverImage", Val.vnone),
     ("content", Val.vstr "We balance platform engineering, guardrails, and automation to ship safely.")] ]

/-- `Testimonial.model_dump()` of the inline two-record fallback sample of
`list_testimonials` (src/main.py lines 175-180); field order: name, role,
company, quote, avatar. -/
def testimonialSample : List Doc :=
  [ [("name", Val.vstr "A. Rivera"), ("role", Val.vstr "CTO"),
     ("company", Val.vstr "Orbit Labs"),
     ("quote", Val.vstr "NEXORA accelerated our roadmap and hardened our security posture."),
     ("avatar", Val.vnone)],
    [("name", Val.vstr "M. Chen"), ("role", Val.vstr "Head of Data"),
     ("company", Val.vstr "QuantumX"),
     ("quote", Val.vstr "From pipeline reliability to dashboards, they delivered."),
     ("avatar", Val.vnone)] ]

/-- `GET /api/content/services` (src/main.py lines 102-114), parameterized by
the outcome of `get_documents("service")`. -/
def list_services (fetch : Except String (List Doc)) : ListResponse :=
  readEndpoint fetch defaultServicesDump

/-- `GET /api/content/projects` (src/main.py lines 117-128). -/
def list_projects (fetch : Except String (List Doc)) : ListResponse :=
  readEndpoint fetch defaultProjectsDump

/-- `GET /api/blog` (src/main.py lines 131-142); `loadTime` is the module
load timestamp baked into the seed post. -/
def list_blog_posts (fetch : Except String (List Doc)) (loadTime : String) : ListResponse :=
  readEndpoint fetch (defaultPostsDump loadTime)

/-- `GET /api/testimonials` (src/main.py lines 163-181). -/
def list_testimonials (fetch : Except String (List Doc)) : ListResponse :=
  readEndpoint fetch testimonialSample

/-- `ContactMessage` (src/schemas.py lines 71-75): name, email, phone?,
message; the email has already passed pydantic validation. -/
structure ContactMessage where
  name : String
  email : String
  phone : Option String
  message : String

/-- `NewsletterSubscriber` (src/schemas.py lines 68-69). -/
structure NewsletterSubscriber where
  email : String

/-- Dump of a validated `ContactMessage` to a stored document, in field
declaration order. -/
def ContactMessage.model_dump (m : ContactMessage) : Doc :=
  [("name", Val.vstr m.name), ("email", Val.vstr m.email),
   ("phone", match m.phone with | some p => Val.vstr p | Option.none => Val.vnone),
   ("message", Val.vstr m.message)]

/-- Dump of a validated `NewsletterSubscriber` to a stored document. -/
def NewsletterSubscriber.model_dump (s : NewsletterSubscriber) : Doc :=
  [("email", Val.vstr s.email)]

/-- The external document store: collections addressed by name. -/
abbrev Store := List (String × List Doc)

/-- Modelled from the spec: the store client (database.py, absent from the
sources) exposes "fetch all records from named collection"
(spec section 6); an absent collection holds no records. -/
def get_documents : Store → String → List Doc
  | [], _ => []
  | (c2, ds) :: rest, c => if c2 == c then ds else get_documents rest c

/-- Replace (or create) a named collection's contents. -/
def storePut : Store → String → List Doc → Store
  | [], c, ds => [(c, ds)]
  | (c2, ds2) :: rest, c, ds =>
    if c2 == c then (c, ds) :: rest else (c2, ds2) :: storePut rest c ds

/-- Modelled from the spec: the store client (database.py, absent from the
sources) exposes "insert one record into named collection, return generated
id" (spec section 6). -/
def create_document (st : Store) (coll : String) (d : Doc) (newId : String) :
    Store × String :=
  (storePut st coll (get_documents st coll ++ [d]), newId)

/-- An insert attempt: either the injected store failure (the raised
exception's message) or the successful insert. -/
def run_create_document (st : Store) (storeFail : Option String) (coll : String)
    (d : Doc) (newId : String) : Except String (Store × String) :=
  match storeFail with
  | some e => Except.error e
  | Option.none => Except.ok (create_document st coll d newId)

/-- The `{ok: true, id: doc_id}` success body of the write handlers. -/
structure OkResponse where
  ok : Bool
  id : String

/-- A write handler outcome: the success body, or an
`HTTPException(status_code, detail)`. -/
abbrev WriteOutcome := Except (Nat × String) OkResponse

/-- `POST /api/contact` handler core (src/main.py lines 145-151),
parameterized by the outcome of `create_document("contactmessage", msg)`:
on success return `{ok: True, id: doc_id}`, on exception raise
`HTTPException(status_code=500, detail=str(e))`. -/
def create_contact (ins : Except String String) : WriteOutcome :=
  match ins with
  | Except.ok docId => Except.ok ⟨true, docId⟩
  | Except.error e => Except.error (500, e)

/-- `POST /api/newsletter` handler core (src/main.py lines 154-160). -/
def subscribe (ins : Except String String) : WriteOutcome :=
  match ins with
  | Except.ok docId => Except.ok ⟨true, docId⟩
  | Except.error e => Except.error (500, e)

/-- `POST /api/contact` threaded through the store: runs the insert against
the store state and pairs the resulting store with the handler outcome
(a raising insert leaves the store as it was). -/
def create_contact_app (st : Store) (storeFail : Option String)
    (msg : ContactMessage) (newId : String) : Store × WriteOutcome :=
  match run_create_document st storeFail "contactmessage" msg.model_dump newId with
  | Except.ok (st2, docId) => (st2, create_contact (Except.ok docId))
  | Except.error e => (st, create_contact (Except.error e))

/-- `POST /api/newsletter` threaded through the store. -/
def subscribe_app (st : Store) (storeFail : Option String)
    (sub : NewsletterSubscriber) (newId : String) : Store × WriteOutcome :=
  match run_create_document st storeFail "newslettersubscriber" sub.model_dump newId with
  | Except.ok (st2, docId) => (st2, subscribe (Except.ok docId))
  | Except.error e => (st, subscribe (Except.error e))

/-- A raw `POST /api/contact` body before validation: any field may be
missing. -/
structure RawContactBody where
  name : Option String
  email : Option String
  phone : Option String
  message : Option String

/-- Split a character list on a separator character. -/
def splitOnChar (c : Char) : List Char → List (List Char)
  | [] => [[]]
  | x :: xs =>
    let r := splitOnChar c xs
    if x == c then [] :: r
    else
      match r with
      | [] => [[x]]
      | y :: ys => (x :: y) :: ys

/-- Modelled from the spec: pydantic `EmailStr` syntactic validation
(framework behavior, not repository code) — a non-empty local part, a
single `@`, and a non-empty domain containing a dot. -/
def isValidEmail (s : String) : Bool :=
  match splitOnChar '@' s.toList with
  | [lp, dom] => !lp.isEmpty && !dom.isEmpty && dom.contains '.'
  | _ => false

/-- Modelled from the spec: FastAPI validates the request body against the
`ContactMessage` shape before the handler runs, rejecting missing required
fields and malformed emails (spec sections 4.2 and 7). -/
def validateContact (b : RawContactBody) : Except String ContactMessage :=
  match b.name, b.email, b.message with
  | some n, some e, some m =>
    if isValidEmail e then Except.ok ⟨n, e, b.phone, m⟩
    else Except.error "value is not a valid email address"
  | _, _, _ => Except.error "Field required"

/-- The full `POST /api/contact` route: validation first; an invalid body is
rejected with a 422 client error and the handler (and store) is never
reached. -/
def post_contact_route (b : RawContactBody) (st : Store) (storeFail : Option String)
    (newId : String) : Store × WriteOutcome :=
  match validateContact b with
  | Except.error e => (st, Except.error (422, e))
  | Except.ok msg => create_contact_app st storeFail msg newId

/-- The store handle as seen by `GET /test`: the database name attribute and
the outcome of `list_collection_names()`. -/
structure DbHandle where
  name : Option String
  listCollectionNames : Except String (List String)

/-- The diagnostics response of `GET /test` (src/main.py lines 36-43). -/
structure TestResponse where
  backend : String
  database : String
  database_url : Option String
  database_name : Option String
  connection_status : String
  collections : List String

/-- Python truthiness of `os.getenv("DATABASE_URL")`: set and non-empty. -/
def envTruthy : Option String → Bool
  | some s => s ≠ ""
  | Option.none => false

/-- `GET /test` (src/main.py lines 33-62): starts from the all-defaults
response and fills each field best-effort; a failure of
`list_collection_names` is caught by the inner `except` and degrades only
the `database` field to an error string (`str(e)[:80]` appended), leaving
`collections` at its default.  `getattr(db, "name", None) or "❌ Unknown"`
follows Python truthiness (None or empty string falls back). -/
def test_database (db : Option DbHandle) (databaseUrl : Option String) : TestResponse :=
  match db with
  | Option.none =>
    { backend := "✅ Running", database := "⚠️  Available but not initialized",
      database_url := Option.none, database_name := Option.none,
      connection_status := "Not Connected", collections := [] }
  | some h =>
    let urlField := if envTruthy databaseUrl then "✅ Set" else "❌ Not Set"
    let nameField := match h.name with
      | some s => if s = "" then "❌ Unknown" else s
      | Option.none => "❌ Unknown"
    match h.listCollectionNames with
    | Except.ok cols =>
      { backend := "✅ Running", database := "✅ Connected & Working",
        database_url := some urlField, database_name := some nameField,
        connection_status := "Connected", collections := cols.take 10 }
    | Except.error e =>
      { backend := "✅ Running",
        database := "⚠️  Connected but Error: " ++ e.take 80,
        database_url := some urlField, database_name := some nameField,
        connection_status := "Connected", collections := [] }

/-- Outcome of a `get_documents` call against the store: the injected
failure (a raised exception's message) or the collection's records. -/
def run_get_documents (st : Store) (readFail : Option String) (coll : String) :
    Except String (List Doc) :=
  match readFail with
  | some e => Except.error e
  | Option.none => Except.ok (get_documents st coll)

/-- `GET /api/content/services` threaded through the store: the handler only
fetches and builds a response, so the store comes back as received. -/
def list_services_app (st : Store) (readFail : Option String) : Store × ListResponse :=
  (st, list_services (run_get_documents st readFail "service"))

/-- `GET /api/content/projects` threaded through the store. -/
def list_projects_app (st : Store) (readFail : Option String) : Store × ListResponse :=
  (st, list_projects (run_get_documents st readFail "project"))

/-- `GET /api/blog` threaded through the store. -/
def list_blog_posts_app (st : Store) (readFail : Option String) (loadTime : String) :
    Store × ListResponse :=
  (st, list_blog_posts (run_get_documents st readFail "blogpost") loadTime)

/-- `GET /api/testimonials` threaded through the store. -/
def list_testimonials_app (st : Store) (readFail : Option String) : Store × ListResponse :=
  (st, list_testimonials (run_get_documents st readFail "testimonial"))

end Nexora

namespace Nexora

/-- Setting a key then reading it back yields the new value. -/
theorem dget_dset_self (d : Doc) (k : String) (v : Val) : dget (dset d k v) k = some v := by
  induction d with
  | nil => simp [dset, dget]
  | cons p rest ih =>
    obtain ⟨k2, v2⟩ := p
    by_cases h : k2 = k
    · subst h; simp [dset, dget]
    · simp [dset, dget, h, ih]

/-- Popping a key removes it. -/
theorem dget_dpop_self (d : Doc) (k : String) : dget (dpop d k) k = Option.none := by
  induction d with
  | nil => simp [dpop, dget]
  | cons p rest ih =>
    obtain ⟨k2, v2⟩ := p
    by_cases h : k2 = k
    · simp [dpop, h, ih]
    · simp [dpop, dget, h, ih]

/-- Popping a key leaves other keys unchanged. -/
theorem dget_dpop_ne (d : Doc) (k k2 : String) (h : k2 ≠ k) :
    dget (dpop d k) k2 = dget d k2 := by
  induction d with
  | nil => simp [dpop]
  | cons p rest ih =>
    obtain ⟨k3, v3⟩ := p
    by_cases h3 : k3 = k
    · subst h3
      have : ¬ (k3 == k2) := by simpa [beq_iff_eq] using fun hh => h hh.symm
      simp [dpop, dget, this, ih]
    · simp [dpop, dget, h3, ih]

/-- Writing a collection then reading it back yields the written records. -/
theorem get_documents_storePut_self (st : Store) (c : String) (ds : List Doc) :
    get_documents (storePut st c ds) c = ds := by
  induction st with
  | nil => simp [storePut, get_documents]
  | cons p rest ih =>
    obtain ⟨c2, ds2⟩ := p
    by_cases h : c2 = c
    · subst h; simp [storePut, get_documents]
    · simp [storePut, get_documents, h, ih]

/-- Writing one collection leaves every other collection unchanged. -/
theorem get_documents_storePut_ne (st : Store) (c c2 : String) (ds : List Doc)
    (h : c2 ≠ c) : get_documents (storePut st c ds) c2 = get_documents st c2 := by
  induction st with
  | nil =>
    have : ¬ (c == c2) := by simpa [beq_iff_eq] using fun hh => h hh.symm
    simp [storePut, get_documents, this]
  | cons p rest ih =>
    obtain ⟨c3, ds3⟩ := p
    by_cases h3 : c3 = c
    · subst h3
      have : ¬ (c3 == c2) := by simpa [beq_iff_eq] using fun hh => h hh.symm
      simp [storePut, get_documents, this, ih]
    · simp [storePut, get_documents, h3, ih]

end Nexora

namespace Nexora

/-- Claim C1: for every read endpoint, a fetch that raises or returns zero
records yields a success response whose items are exactly the fixed fallback
list for that content kind, with no error surfaced. -/
theorem read_endpoints_fallback (fetch : Except String (List Doc)) (loadTime : String)
    (h : (∃ e, fetch = Except.error e) ∨ fetch = Except.ok []) :
    list_services fetch = ⟨defaultServicesDump⟩ ∧
    list_projects fetch = ⟨defaultProjectsDump⟩ ∧
    list_blog_posts fetch loadTime = ⟨defaultPostsDump loadTime⟩ ∧
    list_testimonials fetch = ⟨testimonialSample⟩ := by
  rcases h with ⟨e, rfl⟩ | rfl <;> exact ⟨rfl, rfl, rfl, rfl⟩

/-- Witness for C1 at concrete inputs: the empty fetch result. -/
theorem read_endpoints_fallback_witness :
    list_services (Except.ok []) = ⟨defaultServicesDump⟩ ∧
    list_projects (Except.ok []) = ⟨defaultProjectsDump⟩ ∧
    list_blog_posts (Except.ok []) "2024-01-01 00:00:00" = ⟨defaultPostsDump "2024-01-01 00:00:00"⟩ ∧
    list_testimonials (Except.ok []) = ⟨testimonialSample⟩ :=
  read_endpoints_fallback (Except.ok []) "2024-01-01 00:00:00" (Or.inr rfl)

/-- Claim C3: against an empty (or unreachable) store, `GET
/api/content/services` returns exactly the 5 seeded services whose slugs are,
in order: software-web-development, cybersecurity-network,
digital-transformation, cloud-services, data-analytics. -/
theorem services_empty_store_seeds :
    (∀ e, list_services (Except.error e) = ⟨defaultServicesDump⟩) ∧
    list_services (Except.ok []) = ⟨defaultServicesDump⟩ ∧
    defaultServicesDump.length = 5 ∧
    defaultServicesDump.map (fun d => dget d "slug") =
      [some (Val.vstr "software-web-development"),
       some (Val.vstr "cybersecurity-network"),
       some (Val.vstr "digital-transformation"),
       some (Val.vstr "cloud-services"),
       some (Val.vstr "data-analytics")] :=
  ⟨fun _ => rfl, rfl, rfl, rfl⟩

/-- Claim C2: when the fetch succeeds with N>0 documents, every read
endpoint returns exactly those N records in order, each rewritten so that
`id` holds the stringified internal key and `_id` is absent. -/
theorem read_endpoints_convert (docs : List Doc) (loadTime : String) (h : docs ≠ []) :
    (list_services (Except.ok docs)).items = docs.map convertDoc ∧
    (list_projects (Except.ok docs)).items = docs.map convertDoc ∧
    (list_blog_posts (Except.ok docs) loadTime).items = docs.map convertDoc ∧
    (list_testimonials (Except.ok docs)).items = docs.map convertDoc ∧
    (docs.map convertDoc).length = docs.length ∧
    ∀ d ∈ docs,
      dget (convertDoc d) "id" = some (Val.vstr (pyStr (dget d "_id"))) ∧
      dget (convertDoc d) "_id" = Option.none := by
  have hne : docs.isEmpty = false := by
    cases docs with
    | nil => exact absurd rfl h
    | cons a t => rfl
  refine ⟨?_, ?_, ?_, ?_, List.length_map _ _, ?_⟩
  · simp [list_services, readEndpoint, hne]
  · simp [list_projects, readEndpoint, hne]
  · simp [list_blog_posts, readEndpoint, hne]
  · simp [list_testimonials, readEndpoint, hne]
  · intro d _
    constructor
    · have := dget_dpop_ne (dset d "id" (Val.vstr (pyStr (dget d "_id")))) "_id" "id"
        (by decide)
      rw [convertDoc, this, dget_dset_self]
    · rw [convertDoc, dget_dpop_self]

/-- Witness for C2: a one-document fetch with internal key `656f`. -/
theorem read_endpoints_convert_witness :
    ([[("_id", Val.oid "656f"), ("name", Val.vstr "x")]] : List Doc) ≠ [] ∧
    (list_services (Except.ok [[("_id", Val.oid "656f"), ("name", Val.vstr "x")]])).items =
      [[("name", Val.vstr "x"), ("id", Val.vstr "656f")]] := by
  refine ⟨List.cons_ne_nil _ _, ?_⟩
  have h := read_endpoints_convert [[("_id", Val.oid "656f"), ("name", Val.vstr "x")]]
    "t" (List.cons_ne_nil _ _)
  rw [h.1]; rfl

/-- Claim C9: a fetched document lacking the internal `_id` key is still
returned, with its `id` field equal to the string "None" (the Python
stringification of a missing key). -/
theorem missing_internal_key_gives_none_id (docs : List Doc) (d : Doc)
    (hm : d ∈ docs) (hid : dget d "_id" = Option.none) :
    convertDoc d ∈ (list_services (Except.ok docs)).items ∧
    dget (convertDoc d) "id" = some (Val.vstr "None") := by
  have hne : docs.isEmpty = false := by
    cases docs with
    | nil => exact absurd hm (by simp)
    | cons a t => rfl
  constructor
  · simp only [list_services, readEndpoint, hne]
    simpa using List.mem_map_of_mem convertDoc hm
  · have := dget_dpop_ne (dset d "id" (Val.vstr (pyStr (dget d "_id")))) "_id" "id"
      (by decide)
    rw [convertDoc, this, dget_dset_self, hid]
    rfl

/-- Witness for C9: a single document with no `_id` key. -/
theorem missing_internal_key_gives_none_id_witness :
    convertDoc [("name", Val.vstr "x")] ∈
      (list_services (Except.ok [[("name", Val.vstr "x")]])).items ∧
    dget (convertDoc [("name", Val.vstr "x")]) "id" = some (Val.vstr "None") :=
  missing_internal_key_gives_none_id [[("name", Val.vstr "x")]] [("name", Val.vstr "x")]
    (by simp) rfl

/-- Claim C4: a `POST /api/contact` body that fails validation (missing
required field or malformed email) is rejected with a 422 client error
before the handler runs, and the store is left untouched. -/
theorem invalid_contact_rejected_before_store (b : RawContactBody) (st : Store)
    (storeFail : Option String) (newId : String) (e : String)
    (h : validateContact b = Except.error e) :
    post_contact_route b st storeFail newId = (st, Except.error (422, e)) := by
  simp [post_contact_route, h]

/-- Witness for C4: a body whose email has no domain dot. -/
theorem invalid_contact_rejected_before_store_witness :
    validateContact ⟨some "Ann", some "not-an-email", Option.none, some "hi"⟩ =
      Except.error "value is not a valid email address" ∧
    post_contact_route ⟨some "Ann", some "not-an-email", Option.none, some "hi"⟩
        [] Option.none "id1" =
      ([], Except.error (422, "value is not a valid email address")) := by
  have hv : validateContact ⟨some "Ann", some "not-an-email", Option.none, some "hi"⟩ =
      Except.error "value is not a valid email address" := by
    have hmail : isValidEmail "not-an-email" = false := by decide
    simp [validateContact, hmail]
  exact ⟨hv, invalid_contact_rejected_before_store _ _ _ _ _ hv⟩

/-- Claim C5: when the store insert raises, both write handlers return an
HTTP 500 whose detail is the raised failure's message, with no success
body. -/
theorem write_store_failure_surfaces_500 (e : String) (st : Store)
    (msg : ContactMessage) (sub : NewsletterSubscriber) (i : String) :
    create_contact (Except.error e) = Except.error (500, e) ∧
    subscribe (Except.error e) = Except.error (500, e) ∧
    (create_contact_app st (some e) msg i).2 = Except.error (500, e) ∧
    (subscribe_app st (some e) sub i).2 = Except.error (500, e) :=
  ⟨rfl, rfl, rfl, rfl⟩

/-- Claim C6: when the store insert succeeds with generated id `i`, each
write handler returns exactly `{ok: true, id: i}` and the validated record
is persisted into its collection. -/
theorem write_success_returns_ok_and_persists (st : Store) (msg : ContactMessage)
    (sub : NewsletterSubscriber) (i j : String) :
    (create_contact_app st Option.none msg i).2 = Except.ok ⟨true, i⟩ ∧
    msg.model_dump ∈
      get_documents (create_contact_app st Option.none msg i).1 "contactmessage" ∧
    (subscribe_app st Option.none sub j).2 = Except.ok ⟨true, j⟩ ∧
    sub.model_dump ∈
      get_documents (subscribe_app st Option.none sub j).1 "newslettersubscriber" := by
  refine ⟨rfl, ?_, rfl, ?_⟩
  · have h1 : (create_contact_app st Option.none msg i).1 =
        storePut st "contactmessage"
          (get_documents st "contactmessage" ++ [msg.model_dump]) := rfl
    rw [h1, get_documents_storePut_self]
    simp
  · have h1 : (subscribe_app st Option.none sub j).1 =
        storePut st "newslettersubscriber"
          (get_documents st "newslettersubscriber" ++ [sub.model_dump]) := rfl
    rw [h1, get_documents_storePut_self]
    simp

/-- Claim C7: `GET /test` always returns a full diagnostics response
(backend always reports running), and a failure of the collection-listing
sub-check degrades only the `database` and `collections` fields: the
remaining fields equal those of the successful run. -/
theorem diagnostics_subchecks_isolated (nm : Option String) (url : Option String)
    (e : String) (cols : List String) :
    (∀ db url2, (test_database db url2).backend = "✅ Running") ∧
    (test_database (some ⟨nm, Except.error e⟩) url).database =
      "⚠️  Connected but Error: " ++ e.take 80 ∧
    (test_database (some ⟨nm, Except.error e⟩) url).collections = [] ∧
    (test_database (some ⟨nm, Except.error e⟩) url).database_url =
      (test_database (some ⟨nm, Except.ok cols⟩) url).database_url ∧
    (test_database (some ⟨nm, Except.error e⟩) url).database_name =
      (test_database (some ⟨nm, Except.ok cols⟩) url).database_name ∧
    (test_database (some ⟨nm, Except.error e⟩) url).connection_status =
      (test_database (some ⟨nm, Except.ok cols⟩) url).connection_status := by
  refine ⟨?_, rfl, rfl, rfl, rfl, rfl⟩
  intro db url2
  rcases db with _ | ⟨nm2, lc⟩
  · rfl
  · cases lc <;> rfl

/-- Claim C8: no endpoint updates or deletes a store record: every read
handler returns the store exactly as received, and each write handler only
appends its one validated record to its own collection, leaving every other
collection unchanged (and leaves the store untouched when the insert
raises). -/
theorem only_inserts_mutate_store (st : Store) (readFail : Option String)
    (loadTime e : String) (msg : ContactMessage) (sub : NewsletterSubscriber)
    (i j : String) :
    (list_services_app st readFail).1 = st ∧
    (list_projects_app st readFail).1 = st ∧
    (list_blog_posts_app st readFail loadTime).1 = st ∧
    (list_testimonials_app st readFail).1 = st ∧
    get_documents (create_contact_app st Option.none msg i).1 "contactmessage" =
      get_documents st "contactmessage" ++ [msg.model_dump] ∧
    (∀ c, c ≠ "contactmessage" →
      get_documents (create_contact_app st Option.none msg i).1 c =
        get_documents st c) ∧
    get_documents (subscribe_app st Option.none sub j).1 "newslettersubscriber" =
      get_documents st "newslettersubscriber" ++ [sub.model_dump] ∧
    (∀ c, c ≠ "newslettersubscriber" →
      get_documents (subscribe_app st Option.none sub j).1 c =
        get_documents st c) ∧
    (create_contact_app st (some e) msg i).1 = st ∧
    (subscribe_app st (some e) sub j).1 = st := by
  have hc : (create_contact_app st Option.none msg i).1 =
      storePut st "contactmessage"
        (get_documents st "contactmessage" ++ [msg.model_dump]) := rfl
  have hs : (subscribe_app st Option.none sub j).1 =
      storePut st "newslettersubscriber"
        (get_documents st "newslettersubscriber" ++ [sub.model_dump]) := rfl
  refine ⟨rfl, rfl, rfl, rfl, ?_, ?_, ?_, ?_, rfl, rfl⟩
  · rw [hc, get_documents_storePut_self]
  · intro c hcne
    rw [hc, get_documents_storePut_ne _ _ _ _ hcne]
  · rw [hs, get_documents_storePut_self]
  · intro c hcne
    rw [hs, get_documents_storePut_ne _ _ _ _ hcne]

/-- Witness for C8: a concrete store, one write, and the untouched `service`
collection. -/
theorem only_inserts_mutate_store_witness :
    (list_services_app [("service", defaultServicesDump)] Option.none).1 =
      [("service", defaultServicesDump)] ∧
    get_documents
        (create_contact_app [("service", defaultServicesDump)] Option.none
          ⟨"Ann", "a@b.co", Option.none, "hi"⟩ "id1").1 "service" =
      get_documents [("service", defaultServicesDump)] "service" := by
  have h := only_inserts_mutate_store [("service", defaultServicesDump)] Option.none
    "t" "boom" ⟨"Ann", "a@b.co", Option.none, "hi"⟩ ⟨"a@b.co"⟩ "id1" "id2"
  exact ⟨h.1, h.2.2.2.2.2.1 "service" (by decide)⟩

/-- Claim C10: `POST /api/newsletter` deduplicates nothing: if a record with
email `e` is already in the collection, a successful subscribe with email
`e` still inserts a new record, so at least two records with email `e` are
present afterwards. -/
theorem newsletter_no_dedup (st : Store) (e : String) (d : Doc) (i : String)
    (hd : d ∈ get_documents st "newslettersubscriber")
    (he : dget d "email" = some (Val.vstr e)) :
    (subscribe_app st Option.none ⟨e⟩ i).2 = Except.ok ⟨true, i⟩ ∧
    2 ≤ ((get_documents (subscribe_app st Option.none ⟨e⟩ i).1
            "newslettersubscriber").filter
          (fun x => match dget x "email" with
            | some (Val.vstr s) => s == e
            | _ => false)).length := by
  refine ⟨rfl, ?_⟩
  have hst : (subscribe_app st Option.none ⟨e⟩ i).1 =
      storePut st "newslettersubscriber"
        (get_documents st "newslettersubscriber" ++
          [NewsletterSubscriber.model_dump ⟨e⟩]) := rfl
  rw [hst, get_documents_storePut_self, List.filter_append]
  have hpd : (fun x => match dget x "email" with
      | some (Val.vstr s) => s == e
      | _ => false) d = true := by
    simp only [he]
    exact beq_self_eq_true e
  have h1 : d ∈ (get_documents st "newslettersubscriber").filter
      (fun x => match dget x "email" with
        | some (Val.vstr s) => s == e
        | _ => false) := List.mem_filter.mpr ⟨hd, hpd⟩
  have h2 : 1 ≤ ((get_documents st "newslettersubscriber").filter
      (fun x => match dget x "email" with
        | some (Val.vstr s) => s == e
        | _ => false)).length :=
    List.length_pos.mpr (List.ne_nil_of_mem h1)
  have h3 : ([NewsletterSubscriber.model_dump ⟨e⟩].filter
      (fun x => match dget x "email" with
        | some (Val.vstr s) => s == e
        | _ => false)).length = 1 := by
    simp [NewsletterSubscriber.model_dump, dget]
  rw [List.length_append, h3]
  omega

/-- Witness for C10: one existing subscriber with the same email. -/
theorem newsletter_no_dedup_witness :
    ([("email", Val.vstr "a@b.co")] : Doc) ∈
      get_documents [("newslettersubscriber", [[("email", Val.vstr "a@b.co")]])]
        "newslettersubscriber" ∧
    2 ≤ ((get_documents
            (subscribe_app [("newslettersubscriber", [[("email", Val.vstr "a@b.co")]])]
              Option.none ⟨"a@b.co"⟩ "id9").1 "newslettersubscriber").filter
          (fun x => match dget x "email" with
            | some (Val.vstr s) => s == "a@b.co"
            | _ => false)).length := by
  have hd : ([("email", Val.vstr "a@b.co")] : Doc) ∈
      get_documents [("newslettersubscriber", [[("email", Val.vstr "a@b.co")]])]
        "newslettersubscriber" := by
    simp [get_documents]
  exact ⟨hd, (newsletter_no_dedup
    [("newslettersubscriber", [[("email", Val.vstr "a@b.co")]])]
    "a@b.co" [("email", Val.vstr "a@b.co")] "id9" hd rfl).2⟩

end Nexora
